import Mathlib

/-!
Shallow embedding of the Frontera synchronization-and-enrichment pipeline
(route ingestion, dispatch extraction, field backfill jobs, route closure
evaluation, scheduler registration) together with proofs about the claims
of its specification.

Conventions of the embedding:
* Loosely-typed Python values that flow through the documents are modelled
  by `PyVal`.  A missing dictionary key read through `dict.get` is modelled
  by `PyVal.vnone`, mirroring Python's `None` result.
* Python floats are abstracted as their `str` rendering plus the three
  classification bits the code inspects (`math.isnan`, `math.isinf`,
  equality with zero for truthiness).
* MongoDB collections whose documents are addressed through a unique key
  (`route_key`, `dispatch_key`, `identifier`) are modelled as functions
  from the key to `Option` of the document, which is exactly the state
  space that upsert-by-unique-key operations act on.
* Timestamps (`datetime.now`) are abstract `Nat` parameters.
-/

/-- A loosely-typed Python value as the jobs see it. -/
inductive PyVal where
  | vnone : PyVal
  | vbool : Bool → PyVal
  | vint : Int → PyVal
  /-- A float, abstracted by its `str` rendering and the classification
  bits used by the code: `nan`, `inf` (for `math.isnan` / `math.isinf`)
  and `zero` (whether the float equals `0.0`, for truthiness). -/
  | vfloat : String → Bool → Bool → Bool → PyVal
  | vstr : String → PyVal
  /-- Any other Python object, abstracted by its `str` rendering; such
  objects are truthy. -/
  | vobj : String → PyVal
deriving DecidableEq

/-- Python `str(v)`. -/
def pyStr : PyVal → String
  | PyVal.vnone => "None"
  | PyVal.vbool true => "True"
  | PyVal.vbool false => "False"
  | PyVal.vint n => toString n
  | PyVal.vfloat r _ _ _ => r
  | PyVal.vstr s => s
  | PyVal.vobj r => r

/-- Python truthiness (`bool(v)`). -/
def pyTruthy : PyVal → Bool
  | PyVal.vnone => false
  | PyVal.vbool b => b
  | PyVal.vint n => n != 0
  | PyVal.vfloat _ _ _ zero => !zero
  | PyVal.vstr s => !s.isEmpty
  | PyVal.vobj _ => true

/-- Python `a or b`. -/
def pyOr (a b : PyVal) : PyVal :=
  if pyTruthy a then a else b

/-- Python `str.strip()` (whitespace stripped from both ends). -/
def pyStrip (s : String) : String :=
  String.mk (((s.data.dropWhile Char.isWhitespace).reverse.dropWhile
    Char.isWhitespace).reverse)

/-- Python `str.upper()`. -/
def pyUpper (s : String) : String :=
  String.mk (s.data.map Char.toUpper)

/-- Python `str.lower()`. -/
def pyLower (s : String) : String :=
  String.mk (s.data.map Char.toLower)

/-- Python `str.isdigit()`: non-empty and all digit characters. -/
def pyIsDigits (s : String) : Bool :=
  !s.data.isEmpty && s.data.all Char.isDigit

/-- Python `int(s)` on an all-digits string. -/
def digitsToNat (s : String) : Nat :=
  s.data.foldl (fun n c => 10 * n + (c.toNat - 48)) 0

/-! ## backfill_substatus.py -/

/-- `_is_bad_number`: `True` iff the value is a NaN or infinite float. -/
def isBadNumber : PyVal → Bool
  | PyVal.vfloat _ nan inf _ => nan || inf
  | _ => false

/-- `_normalize_code`: canonicalize a `substatus_code` into a lookup
string, or `none` when the code must be treated as "no code". -/
def normalizeCode (code : PyVal) : Option String :=
  match code with
  | PyVal.vnone => none
  | _ =>
    if isBadNumber code then none
    else
      let s := pyStrip (pyStr code)
      if s = "" || pyLower s = "nan" then none
      else some s

/-- `_code_variants`: the representations used for the reference lookup —
the canonical string, plus its integer parse when it is all digits. -/
def codeVariants (code : PyVal) : Option (List PyVal) :=
  match normalizeCode code with
  | none => none
  | some norm =>
    if pyIsDigits norm then some [PyVal.vstr norm, PyVal.vint (digitsToNat norm)]
    else some [PyVal.vstr norm]

/-- One row of the read-only sub-status reference collection.  Field
values are `PyVal` with `vnone` for a missing key, mirroring `get`. -/
structure SubRow where
  codigoSub : PyVal
  estadoBeetrack : PyVal
  estadoGuia : PyVal
  cierre : PyVal
deriving DecidableEq

/-- `_lookup_substatus`: first reference row whose `Código Sub` value is
among the code's variants (`find_one` with an `$in` filter). -/
def lookupSubstatus (rows : List SubRow) (code : PyVal) : Option SubRow :=
  match codeVariants code with
  | none => none
  | some variants =>
    if variants.isEmpty then none
    else rows.find? (fun row => decide (row.codigoSub ∈ variants))

/-- The three `$set` values the sub-status job writes for one dispatch,
decided from its `substatus_code` alone (`run` in backfill_substatus.py):
invalid code → three nulls; valid but unmatched → three nulls; matched →
the row's `Estado Beetrack` / `Estado Guía` / `Cierre` values. -/
def substatusFields (rows : List SubRow) (code : PyVal) :
    PyVal × PyVal × PyVal :=
  match normalizeCode code with
  | none => (PyVal.vnone, PyVal.vnone, PyVal.vnone)
  | some _ =>
    match lookupSubstatus rows code with
    | some row => (row.estadoBeetrack, row.estadoGuia, row.cierre)
    | none => (PyVal.vnone, PyVal.vnone, PyVal.vnone)

/-- A dispatch document as the sub-status job sees it. -/
structure SubDoc where
  substatus_code : PyVal
  estado_beetrack : PyVal
  estado_guia : PyVal
  cierre : PyVal
deriving DecidableEq

/-- `run` of backfill_substatus.py: scan every dispatch (`find()` with no
filter) and `$set` the three derived fields from `substatus_code`. -/
def runSubstatus (rows : List SubRow) (docs : List SubDoc) : List SubDoc :=
  docs.map (fun d =>
    let f := substatusFields rows d.substatus_code
    { d with estado_beetrack := f.1, estado_guia := f.2.1, cierre := f.2.2 })

/-! ## Tags -/

/-- One tag dictionary.  Each field holds the result of `tag.get` for the
corresponding key spelling (`vnone` when the key is missing). -/
structure Tag where
  name : PyVal
  nameCap : PyVal
  value : PyVal
  valueCap : PyVal
deriving DecidableEq

/-- The name a tag resolves to in the CODCOMU extractor:
`tag.get("name") or tag.get("Name")`. -/
def tagName (t : Tag) : PyVal := pyOr t.name t.nameCap

/-- The value a tag resolves to in the CODCOMU extractor:
`tag.get("value") or tag.get("Value")`. -/
def tagValue (t : Tag) : PyVal := pyOr t.value t.valueCap

/-- Whether one tag matches the CODCOMU test of `_extract_codcomu_value`:
truthy resolved name whose stripped upper-case rendering is `CODCOMU`
(tags with a falsy name are skipped by `if not name: continue`). -/
def isCodcomuTag (t : Tag) : Bool :=
  pyTruthy (tagName t) && decide (pyUpper (pyStrip (pyStr (tagName t))) = "CODCOMU")

/-- The scan loop of `_extract_codcomu_value` over the tag list. -/
def extractCodcomuGo : List Tag → Option String
  | [] => none
  | t :: rest =>
    if isCodcomuTag t then
      match tagValue t with
      | PyVal.vnone => none
      | v => some (pyStrip (pyStr v))
    else extractCodcomuGo rest

/-- The `tags` field of a dispatch document as read by `disp_doc.get`:
either not a list (including a missing field) or a list of tags. -/
inductive CodTagsField where
  | notList : CodTagsField
  | items : List Tag → CodTagsField
deriving DecidableEq

/-- `_extract_codcomu_value` of backfill_ct.py (the identical helper also
appears in backfill_substatus.py): trimmed stringified value of the first
CODCOMU tag, `none` when the value resolves to `None`, when no tag
matches, or when `tags` is not a list. -/
def extractCodcomuValue : CodTagsField → Option String
  | CodTagsField.notList => none
  | CodTagsField.items tags => extractCodcomuGo tags

/-! ## backfill_tipo_orden_from_tags.py -/

/-- An item of the `tags` array for the order-type job, which checks
`isinstance(tag, dict)` before reading it. -/
inductive TagItem where
  | dict : Tag → TagItem
  | nonDict : TagItem
deriving DecidableEq

/-- The `tags` field for the order-type job (`doc.get("tags", [])` then an
`isinstance(tags, list)` check; a missing field yields `[]`). -/
inductive TipoTagsField where
  | notList : TipoTagsField
  | items : List TagItem → TipoTagsField
deriving DecidableEq

/-- The scan loop of `extract_tipo_orden`: `tag.get("value")` of the first
dict item with `tag.get("name") == "TIPO_ORDEN"` (case-sensitive, single
key spelling), else `None`. -/
def extractTipoOrdenGo : List TagItem → PyVal
  | [] => PyVal.vnone
  | TagItem.nonDict :: rest => extractTipoOrdenGo rest
  | TagItem.dict t :: rest =>
    if t.name = PyVal.vstr "TIPO_ORDEN" then t.value
    else extractTipoOrdenGo rest

/-- `extract_tipo_orden` of backfill_tipo_orden_from_tags.py. -/
def extractTipoOrden : TipoTagsField → PyVal
  | TipoTagsField.notList => PyVal.vnone
  | TipoTagsField.items l => extractTipoOrdenGo l

/-- A dispatch document as the order-type job sees it: `tipoOrden = none`
models a document where the `tipo_orden` field does not exist (the job's
scan filter), `some v` a present field with value `v`. -/
structure TipoDoc where
  tipoOrden : Option PyVal
  tags : TipoTagsField
deriving DecidableEq

/-- The treatment of one document in the scan loop of
backfill_tipo_orden_from_tags.py: documents already having `tipo_orden`
are outside the scan filter (`$exists: False`); a scanned document is
skipped when the extracted value is `None` and updated otherwise. -/
def tipoOrdenStep (d : TipoDoc) : TipoDoc :=
  if d.tipoOrden.isSome then d
  else
    match extractTipoOrden d.tags with
    | PyVal.vnone => d
    | v => { d with tipoOrden := some v }

/-- `run` of backfill_tipo_orden_from_tags.py over the collection. -/
def runTipoOrden (docs : List TipoDoc) : List TipoDoc :=
  docs.map tipoOrdenStep

/-- Whether a tag-list item matches the `TIPO_ORDEN` test of
`extract_tipo_orden` (a dict whose `name` equals `"TIPO_ORDEN"`
case-sensitively). -/
def isTipoOrdenTag : TagItem → Bool
  | TagItem.nonDict => false
  | TagItem.dict t => decide (t.name = PyVal.vstr "TIPO_ORDEN")

/-! ## Routes and dispatches (trash/jobs/get_routes.py,
get_details_from_route.py, get_dispatches.py,
close_route_if_all_dispatches_closed.py) -/

/-- One embedded dispatch item of a route payload, through the `get`
calls the extractor performs on it. -/
structure PDisp where
  identifier : PyVal
  status : PyVal
  status_id : PyVal
  substatus : PyVal
  substatus_code : PyVal
  is_trunk : PyVal
  is_pickup : PyVal
  estimated_at : PyVal
  min_delivery_time : PyVal
  max_delivery_time : PyVal
  delivery_time : PyVal
  beecode : PyVal
deriving DecidableEq

/-- The `dispatches` field of a route payload: missing, present but not a
list, or a list of dispatch items. -/
inductive DispListField where
  | missing : DispListField
  | notList : DispListField
  | list : List PDisp → DispListField
deriving DecidableEq

/-- The `truck` field of a route payload (`payload.get("truck") or {}`
followed by `.get("identifier")`). -/
inductive TruckField where
  | missing : TruckField
  | obj : PyVal → TruckField
deriving DecidableEq

/-- `truck.identifier` after the `or {}` fallback. -/
def truckIdentifierOf : TruckField → PyVal
  | TruckField.missing => PyVal.vnone
  | TruckField.obj i => i

/-- A raw route payload (a listing item of `get_routes`, stored verbatim
as `minified_raw`, or a detail payload stored as `full_raw`), through the
fields the jobs read from it. -/
structure RoutePayload where
  number : PyVal
  route_number : PyVal
  idField : PyVal
  dispatch_date : PyVal
  truck : TruckField
  dispatches : DispListField
deriving DecidableEq

/-- A route document of the `routes` collection.  `isClosed = none`
models a document without the `is_closed` field.  `mongoId` stands for
the Mongo `_id` (abstract). -/
structure RouteDoc where
  mongoId : Nat
  routeKey : String
  date : String
  page : Int
  minifiedRaw : Option RoutePayload
  fullRaw : Option RoutePayload
  hasFullDetails : Bool
  isClosed : Option Bool
  closedAt : Option Nat
  createdAt : Nat
  lastRefreshedAt : Nat
deriving DecidableEq

/-- The `routes` collection, addressed by its upsert key `route_key`. -/
abbrev RouteStore := String → Option RouteDoc

/-- `_get_route_payload`: prefer `full_raw`, fall back to `minified_raw`,
else an empty payload.  `Option.none` models a missing (or empty, hence
falsy) payload field. -/
def getRoutePayload (r : RouteDoc) : RoutePayload :=
  match r.fullRaw with
  | some p => p
  | none =>
    match r.minifiedRaw with
    | some p => p
    | none =>
      { number := PyVal.vnone, route_number := PyVal.vnone,
        idField := PyVal.vnone, dispatch_date := PyVal.vnone,
        truck := TruckField.missing, dispatches := DispListField.missing }

/-- `_extract_route_key` of get_routes.py: first non-`None` value among
the `number`, `route_number`, `id` fields, stringified. -/
def extractRouteKey (r : RoutePayload) : Option String :=
  if r.number ≠ PyVal.vnone then some (pyStr r.number)
  else if r.route_number ≠ PyVal.vnone then some (pyStr r.route_number)
  else if r.idField ≠ PyVal.vnone then some (pyStr r.idField)
  else none

/-- One iteration of the upsert loop of `_upsert_routes_for_page`: skip
the item when its key is `None` or falsy (`if not key`), otherwise upsert
by `route_key`: always `$set` `date`/`page`/`minified_raw`/
`last_refreshed_at`; `created_at`, `has_full_details = False` and
`is_closed = False` only on first insert (`$setOnInsert`).  The inserted
`_id` is abstracted as `0`. -/
def routesPageStep (dateStr : String) (page : Int) (now : Nat)
    (st : RouteStore) (item : RoutePayload) : RouteStore :=
  match extractRouteKey item with
  | none => st
  | some key =>
    if key = "" then st
    else fun q =>
      if q = key then
        match st key with
        | some old =>
          some { old with date := dateStr, page := page,
                          minifiedRaw := some item, lastRefreshedAt := now }
        | none =>
          some { mongoId := 0, routeKey := key, date := dateStr, page := page,
                 minifiedRaw := some item, fullRaw := none,
                 hasFullDetails := false, isClosed := some false,
                 closedAt := none, createdAt := now, lastRefreshedAt := now }
      else st q

/-- `_upsert_routes_for_page` of get_routes.py, given the routes the API
returned for this (date, page). -/
def upsertRoutesForPage (dateStr : String) (page : Int) (now : Nat)
    (items : List RoutePayload) (st : RouteStore) : RouteStore :=
  items.foldl (routesPageStep dateStr page now) st

/-- `run` of get_details_from_route.py: for every route of the given date
that is not closed (`is_closed: {$ne: True}`) and has a truthy
`route_key`, fetch the detail payload and `$set` `full_raw`,
`has_full_details = True`, `last_refreshed_at`.  `fetched` gives the
(unwrapped) payload per route key, `none` standing for a
`DispatchTrackAPIError`, which skips the route. -/
def runGetDetails (dateStr : String) (fetched : String → Option RoutePayload)
    (now : Nat) (st : RouteStore) : RouteStore :=
  fun q =>
    match st q with
    | none => none
    | some r =>
      if r.date = dateStr ∧ r.isClosed ≠ some true ∧ r.routeKey ≠ "" then
        match fetched r.routeKey with
        | some p =>
          some { r with fullRaw := some p, hasFullDetails := true,
                        lastRefreshedAt := now }
        | none => some r
      else some r

/-- A dispatch document of the `dispatches` collection as produced by
get_dispatches.py and consumed by the closure evaluator.  `ct` and
`cierre` are `vnone` while the fields are absent/null. -/
structure DispatchDoc where
  dispatchKey : String
  routeId : Nat
  routeKey : String
  routeDispatchDate : PyVal
  routePage : Int
  truckIdentifier : PyVal
  dispatchRaw : PDisp
  status : PyVal
  status_id : PyVal
  substatus : PyVal
  substatus_code : PyVal
  is_trunk : PyVal
  is_pickup : PyVal
  estimated_at : PyVal
  min_delivery_time : PyVal
  max_delivery_time : PyVal
  delivery_time : PyVal
  beecode : PyVal
  ct : PyVal
  cierre : PyVal
  createdAt : Nat
  lastRefreshedAt : Nat
deriving DecidableEq

/-- The `dispatches` collection, addressed by its upsert key
`dispatch_key`. -/
abbrev DispStore := String → Option DispatchDoc

/-- The route-level metadata propagated into every dispatch document of
one `get_dispatches` run. -/
structure DispCtx where
  routeId : Nat
  routeKey : String
  routeDispatchDate : PyVal
  routePage : Int
  truckIdentifier : PyVal
deriving DecidableEq

/-- `_extract_dispatch_key` composed with the `if not disp_key` guard of
the loop: the stringified `identifier`, skipped when the identifier is
`None` or the string is empty. -/
def keyOfDispatch (d : PDisp) : Option String :=
  match d.identifier with
  | PyVal.vnone => none
  | v => if pyStr v = "" then none else some (pyStr v)

/-- The `$set` content (`doc_meta` minus `last_refreshed_at`) built for
one embedded dispatch. -/
structure SetMeta where
  routeId : Nat
  routeKey : String
  routeDispatchDate : PyVal
  routePage : Int
  truckIdentifier : PyVal
  dispatchRaw : PDisp
  status : PyVal
  status_id : PyVal
  substatus : PyVal
  substatus_code : PyVal
  is_trunk : PyVal
  is_pickup : PyVal
  estimated_at : PyVal
  min_delivery_time : PyVal
  max_delivery_time : PyVal
  delivery_time : PyVal
  beecode : PyVal
deriving DecidableEq

/-- `doc_meta` of get_dispatches.py for one dispatch item (route linkage
plus the flattened scalar fields and the verbatim raw payload). -/
def buildMeta (ctx : DispCtx) (d : PDisp) : SetMeta :=
  { routeId := ctx.routeId, routeKey := ctx.routeKey,
    routeDispatchDate := ctx.routeDispatchDate, routePage := ctx.routePage,
    truckIdentifier := ctx.truckIdentifier, dispatchRaw := d,
    status := d.status, status_id := d.status_id, substatus := d.substatus,
    substatus_code := d.substatus_code, is_trunk := d.is_trunk,
    is_pickup := d.is_pickup, estimated_at := d.estimated_at,
    min_delivery_time := d.min_delivery_time,
    max_delivery_time := d.max_delivery_time,
    delivery_time := d.delivery_time, beecode := d.beecode }

/-- The effect of one `UpdateOne({"dispatch_key": k}, {$set: meta ∪
{last_refreshed_at: now}, $setOnInsert: {created_at: now, ct: None}},
upsert=True)` on the document currently stored at `k`.  `cierre` is not
part of the write, so it stays absent on insert and untouched on
update. -/
def applyMeta (m : SetMeta) (k : String) (now : Nat)
    (old : Option DispatchDoc) : DispatchDoc :=
  { dispatchKey := match old with | some o => o.dispatchKey | none => k,
    routeId := m.routeId, routeKey := m.routeKey,
    routeDispatchDate := m.routeDispatchDate, routePage := m.routePage,
    truckIdentifier := m.truckIdentifier, dispatchRaw := m.dispatchRaw,
    status := m.status, status_id := m.status_id, substatus := m.substatus,
    substatus_code := m.substatus_code, is_trunk := m.is_trunk,
    is_pickup := m.is_pickup, estimated_at := m.estimated_at,
    min_delivery_time := m.min_delivery_time,
    max_delivery_time := m.max_delivery_time,
    delivery_time := m.delivery_time, beecode := m.beecode,
    ct := match old with | some o => o.ct | none => PyVal.vnone,
    cierre := match old with | some o => o.cierre | none => PyVal.vnone,
    createdAt := match old with | some o => o.createdAt | none => now,
    lastRefreshedAt := now }

/-- One iteration of the dispatch upsert loop of get_dispatches.py. -/
def dispStep (ctx : DispCtx) (now : Nat) (st : DispStore) (d : PDisp) :
    DispStore :=
  match keyOfDispatch d with
  | none => st
  | some k => fun q =>
    if q = k then some (applyMeta (buildMeta ctx d) k now (st k)) else st q

/-- The whole upsert loop of one `get_dispatches` run (batch flushing
with unordered bulk writes has the same per-key effect). -/
def processDispatches (ctx : DispCtx) (now : Nat) (l : List PDisp)
    (st : DispStore) : DispStore :=
  l.foldl (dispStep ctx now) st

/-- `_extract_dispatch_list`: the payload's `dispatches` list, `[]` when
missing or not a list. -/
def payloadDispList (p : RoutePayload) : List PDisp :=
  match p.dispatches with
  | DispListField.list l => l
  | _ => []

/-- The route-level metadata of one `get_dispatches` run:
`_extract_route_meta` plus `route_dispatch_date = payload dispatch_date
or route_doc.date` and `route_page = route_doc.page`. -/
def mkDispCtx (rd : RouteDoc) (routeKey : String) : DispCtx :=
  { routeId := rd.mongoId, routeKey := routeKey,
    routeDispatchDate := pyOr (getRoutePayload rd).dispatch_date (PyVal.vstr rd.date),
    routePage := rd.page,
    truckIdentifier := truckIdentifierOf (getRoutePayload rd).truck }

/-- `run` of get_dispatches.py for one route key: no-op when the route is
not stored, else upsert every embedded dispatch of the working payload. -/
def runGetDispatches (routes : RouteStore) (routeKey : String) (now : Nat)
    (st : DispStore) : DispStore :=
  match routes routeKey with
  | none => st
  | some rd =>
    processDispatches (mkDispCtx rd routeKey) now
      (payloadDispList (getRoutePayload rd)) st

/-- The last `$set` content the upsert loop issues for key `k` while
processing the list (the per-key net effect of the unordered bulk writes
of one run: for a repeated key the last occurrence wins, while
`created_at`/`ct` stay as first established). -/
def lastSetFor (ctx : DispCtx) (k : String) : List PDisp → Option SetMeta
  | [] => none
  | d :: rest =>
    match lastSetFor ctx k rest with
    | some m => some m
    | none =>
      if keyOfDispatch d = some k then some (buildMeta ctx d) else none

/-- `_extract_dispatch_ids` of close_route_if_all_dispatches_closed.py:
stringified `identifier` of each item of the payload's `dispatches` list
(items without an identifier skipped); `[]` when the field is missing or
not a list. -/
def extractDispatchIds (p : RoutePayload) : List String :=
  (payloadDispList p).filterMap (fun d =>
    match d.identifier with
    | PyVal.vnone => none
    | v => some (pyStr v))

/-- The per-id test of the closure evaluator's `found` map: the id has a
stored dispatch document and that document's `cierre` is exactly the
boolean `True` (`doc.get("cierre") is True`); a missing document counts
as not closed. -/
def cierreTrue (disps : DispStore) (dk : String) : Bool :=
  match disps dk with
  | some d => decide (d.cierre = PyVal.vbool true)
  | none => false

/-- The closing write of the evaluator (`update_one` on the route's
document setting `is_closed = True`, `closed_at = now`). -/
def closeRouteUpdate (st : RouteStore) (routeKey : String) (r : RouteDoc)
    (now : Nat) : RouteStore :=
  fun q =>
    if q = routeKey then
      some { r with isClosed := some true, closedAt := some now }
    else st q

/-- `run` of close_route_if_all_dispatches_closed.py: no-op when the
route is missing or already closed; close immediately when the payload's
dispatch-id list is empty; otherwise close iff every listed id has a
stored dispatch whose `cierre` is exactly `True`. -/
def runCloseRoute (disps : DispStore) (routeKey : String) (now : Nat)
    (st : RouteStore) : RouteStore :=
  match st routeKey with
  | none => st
  | some r =>
    if r.isClosed = some true then st
    else if (extractDispatchIds (getRoutePayload r)).isEmpty then
      closeRouteUpdate st routeKey r now
    else if (extractDispatchIds (getRoutePayload r)).all (cierreTrue disps) then
      closeRouteUpdate st routeKey r now
    else st

/-! ## fetch_dispatches.py -/

/-- A dispatch payload of the date-range fetcher, through the `get` calls
`save_dispatch_to_mongo` performs on it (the same field set serves as the
stored document, which is built from exactly these getters). -/
structure FetchFields where
  dispatch_id : PyVal
  identifier : PyVal
  status : PyVal
  contact_name : PyVal
  contact_address : PyVal
  contact_phone : PyVal
  contact_email : PyVal
  latitude : PyVal
  longitude : PyVal
  route_id : PyVal
  substatus : PyVal
  substatus_code : PyVal
  tags : PyVal
  is_trunk : PyVal
  is_pickup : PyVal
  delivered_in_client : PyVal
  arrived_at : PyVal
  estimated_at : PyVal
  min_delivery_time : PyVal
  max_delivery_time : PyVal
  beecode : PyVal
  locked : PyVal
  end_type : PyVal
  number_of_retries : PyVal
  min_age_required : PyVal
  address_reference : PyVal
  pickup_address_reference : PyVal
  to_be_payed : PyVal
  external_pincode : PyVal
  items : PyVal
  last_refreshed_at : PyVal
deriving DecidableEq

/-- The `dispatch_doc` built by `save_dispatch_to_mongo`, field by field
from the payload's getters. -/
def buildDispatchDoc (p : FetchFields) : FetchFields :=
  { dispatch_id := p.dispatch_id, identifier := p.identifier,
    status := p.status, contact_name := p.contact_name,
    contact_address := p.contact_address, contact_phone := p.contact_phone,
    contact_email := p.contact_email, latitude := p.latitude,
    longitude := p.longitude, route_id := p.route_id,
    substatus := p.substatus, substatus_code := p.substatus_code,
    tags := p.tags, is_trunk := p.is_trunk, is_pickup := p.is_pickup,
    delivered_in_client := p.delivered_in_client,
    arrived_at := p.arrived_at, estimated_at := p.estimated_at,
    min_delivery_time := p.min_delivery_time,
    max_delivery_time := p.max_delivery_time, beecode := p.beecode,
    locked := p.locked, end_type := p.end_type,
    number_of_retries := p.number_of_retries,
    min_age_required := p.min_age_required,
    address_reference := p.address_reference,
    pickup_address_reference := p.pickup_address_reference,
    to_be_payed := p.to_be_payed, external_pincode := p.external_pincode,
    items := p.items, last_refreshed_at := p.last_refreshed_at }

/-- The collection of the date-range fetcher, addressed by the
`identifier` value it is queried and upserted with. -/
abbrev FetchStore := PyVal → Option FetchFields

/-- `save_dispatch_to_mongo`: return without writing when a document with
this identifier already exists, otherwise upsert (insert) the built
document. -/
def saveDispatchToMongo (st : FetchStore) (p : FetchFields) : FetchStore :=
  match st p.identifier with
  | some _ => st
  | none => fun k =>
    if k = p.identifier then some (buildDispatchDoc p) else st k

/-- The saving loop of `fetch_dispatches_by_dates` over the dispatches
returned by the API pages, in fetch order (pagination and HTTP handling
are external; the run saves each fetched dispatch in turn). -/
def fetchDispatchesSave (st : FetchStore) (l : List FetchFields) :
    FetchStore :=
  l.foldl saveDispatchToMongo st

/-! ## orchestrator/orchestrator.py -/

/-- One entry of the static job table `JOBS` (defined in the
orchestrator's config module), through the keys `schedule_jobs` reads. -/
structure JobCfg where
  jobId : String
  jobType : Option String
  seconds : Nat
  cron : String
deriving DecidableEq

/-- A trigger: fixed interval in seconds, or a cron expression. -/
inductive Trigger where
  | interval : Nat → Trigger
  | cron : String → Trigger
deriving DecidableEq

/-- One `scheduler.add_job` registration. -/
structure Registration where
  jobId : String
  trigger : Trigger
  maxInstances : Nat
  coalesce : Bool
deriving DecidableEq

/-- `schedule_jobs` of orchestrator.py: register every job of the table,
with an interval trigger when `type == "interval"` and a cron trigger
otherwise, always with `max_instances=1` and `coalesce=True`. -/
def scheduleJobs (jobs : List JobCfg) : List Registration :=
  jobs.map (fun c =>
    { jobId := c.jobId,
      trigger := if c.jobType = some "interval" then Trigger.interval c.seconds
                 else Trigger.cron c.cron,
      maxInstances := 1, coalesce := true })

/-- The run state of one registered job: how many executions are
currently in flight and how many have been started in total. -/
structure JobRunState where
  active : Nat
  started : Nat
deriving DecidableEq

/-- Modelled from the spec: the scheduler library's firing rule for
`max_instances` (the APScheduler runtime is external to the repository).
A due firing starts a new execution unless `max_instances` executions of
the same job are still running, in which case the firing is skipped
entirely — nothing is queued and the state is unchanged. -/
def fireJob (r : Registration) (s : JobRunState) : JobRunState :=
  if r.maxInstances ≤ s.active then s
  else { active := s.active + 1, started := s.started + 1 }

/-- Modelled from the spec: the scheduler library's catch-up rule for
`coalesce` (the APScheduler runtime is external to the repository).  When
`missed` firings accumulated while the process was unavailable, a
coalescing job fires once; a non-coalescing job fires once per missed
tick. -/
def catchUpMissed (r : Registration) (missed : Nat) (s : JobRunState) :
    JobRunState :=
  if missed = 0 then s
  else if r.coalesce then fireJob r s
  else (List.range missed).foldl (fun acc _ => fireJob r acc) s

/-! ## Concrete fixtures used by witnesses and counterexamples -/

/-- A fetched dispatch payload with every optional field absent. -/
def blankFetch : FetchFields where
  dispatch_id := PyVal.vnone
  identifier := PyVal.vnone
  status := PyVal.vnone
  contact_name := PyVal.vnone
  contact_address := PyVal.vnone
  contact_phone := PyVal.vnone
  contact_email := PyVal.vnone
  latitude := PyVal.vnone
  longitude := PyVal.vnone
  route_id := PyVal.vnone
  substatus := PyVal.vnone
  substatus_code := PyVal.vnone
  tags := PyVal.vnone
  is_trunk := PyVal.vnone
  is_pickup := PyVal.vnone
  delivered_in_client := PyVal.vnone
  arrived_at := PyVal.vnone
  estimated_at := PyVal.vnone
  min_delivery_time := PyVal.vnone
  max_delivery_time := PyVal.vnone
  beecode := PyVal.vnone
  locked := PyVal.vnone
  end_type := PyVal.vnone
  number_of_retries := PyVal.vnone
  min_age_required := PyVal.vnone
  address_reference := PyVal.vnone
  pickup_address_reference := PyVal.vnone
  to_be_payed := PyVal.vnone
  external_pincode := PyVal.vnone
  items := PyVal.vnone
  last_refreshed_at := PyVal.vnone

/-- The payload of dispatch `D9` as first fetched. -/
def w10old : FetchFields :=
  { blankFetch with dispatch_id := PyVal.vint 1,
                    identifier := PyVal.vstr "D9",
                    status := PyVal.vstr "old" }

/-- The payload of dispatch `D9` as later re-fetched with a changed
upstream `status`. -/
def w10new : FetchFields :=
  { blankFetch with dispatch_id := PyVal.vint 2,
                    identifier := PyVal.vstr "D9",
                    status := PyVal.vstr "changed upstream" }

/-- A store already holding dispatch `D9`. -/
def w10store : FetchStore := fun k =>
  if k = PyVal.vstr "D9" then some (buildDispatchDoc w10old) else none

/-- An embedded dispatch item with every field absent. -/
def blankPDisp : PDisp where
  identifier := PyVal.vnone
  status := PyVal.vnone
  status_id := PyVal.vnone
  substatus := PyVal.vnone
  substatus_code := PyVal.vnone
  is_trunk := PyVal.vnone
  is_pickup := PyVal.vnone
  estimated_at := PyVal.vnone
  min_delivery_time := PyVal.vnone
  max_delivery_time := PyVal.vnone
  delivery_time := PyVal.vnone
  beecode := PyVal.vnone

/-- An embedded dispatch item with identifier `D1`. -/
def wpd1 : PDisp :=
  { blankPDisp with identifier := PyVal.vstr "D1",
                    status := PyVal.vstr "delivered",
                    substatus_code := PyVal.vstr "1" }

/-- A route payload whose dispatch list is `[wpd1]`. -/
def wpayload1 : RoutePayload where
  number := PyVal.vstr "R1"
  route_number := PyVal.vnone
  idField := PyVal.vnone
  dispatch_date := PyVal.vstr "2025-11-26"
  truck := TruckField.obj (PyVal.vstr "T7")
  dispatches := DispListField.list [wpd1]

/-- An open route document for `R1` whose minified payload is
`wpayload1`. -/
def wroute1 : RouteDoc where
  mongoId := 3
  routeKey := "R1"
  date := "2025-11-26"
  page := 1
  minifiedRaw := some wpayload1
  fullRaw := none
  hasFullDetails := false
  isClosed := some false
  closedAt := none
  createdAt := 0
  lastRefreshedAt := 0

/-- A route store holding only `wroute1`. -/
def wroutes1 : RouteStore := fun k =>
  if k = "R1" then some wroute1 else none

/-- The `$set` content the extractor computes for `wpd1`. -/
def wmeta1 : SetMeta := buildMeta (mkDispCtx wroute1 "R1") wpd1

/-- A stored dispatch document with every loose field absent. -/
def blankDispatchDoc : DispatchDoc where
  dispatchKey := ""
  routeId := 0
  routeKey := ""
  routeDispatchDate := PyVal.vnone
  routePage := 0
  truckIdentifier := PyVal.vnone
  dispatchRaw := blankPDisp
  status := PyVal.vnone
  status_id := PyVal.vnone
  substatus := PyVal.vnone
  substatus_code := PyVal.vnone
  is_trunk := PyVal.vnone
  is_pickup := PyVal.vnone
  estimated_at := PyVal.vnone
  min_delivery_time := PyVal.vnone
  max_delivery_time := PyVal.vnone
  delivery_time := PyVal.vnone
  beecode := PyVal.vnone
  ct := PyVal.vnone
  cierre := PyVal.vnone
  createdAt := 0
  lastRefreshedAt := 0

/-- A stored dispatch `D1` whose `cierre` is exactly `True`. -/
def w2disp : DispatchDoc :=
  { blankDispatchDoc with dispatchKey := "D1",
                          routeKey := "R1",
                          cierre := PyVal.vbool true }

/-- A dispatch store holding only `w2disp`. -/
def w2disps : DispStore := fun k =>
  if k = "D1" then some w2disp else none

/-- A closed route document for `R9`. -/
def w1closed : RouteDoc where
  mongoId := 9
  routeKey := "R9"
  date := "2025-11-20"
  page := 1
  minifiedRaw := some { number := PyVal.vstr "R9", route_number := PyVal.vnone,
                        idField := PyVal.vnone,
                        dispatch_date := PyVal.vstr "2025-11-20",
                        truck := TruckField.missing,
                        dispatches := DispListField.list [] }
  fullRaw := none
  hasFullDetails := true
  isClosed := some true
  closedAt := some 7
  createdAt := 1
  lastRefreshedAt := 2

/-- A route store holding only the closed route `w1closed`. -/
def w1routes : RouteStore := fun k =>
  if k = "R9" then some w1closed else none

/-- A fresh listing item for route `R9` as returned by a later listing
page (its payload content differs from the stored `minified_raw`). -/
def w1item : RoutePayload where
  number := PyVal.vstr "R9"
  route_number := PyVal.vnone
  idField := PyVal.vnone
  dispatch_date := PyVal.vstr "2025-11-27"
  truck := TruckField.missing
  dispatches := DispListField.list [wpd1]

/-- A CODCOMU tag carrying the empty string as its value. -/
def w6emptyTag : Tag where
  name := PyVal.vstr "CODCOMU"
  nameCap := PyVal.vnone
  value := PyVal.vstr ""
  valueCap := PyVal.vnone

/-- A lower-case CODCOMU tag carrying a padded value. -/
def w6tag : Tag where
  name := PyVal.vstr "codcomu"
  nameCap := PyVal.vnone
  value := PyVal.vstr " 55 "
  valueCap := PyVal.vnone

/-- A `TIPO_ORDEN` tag whose value is the empty string. -/
def w7emptyTag : Tag where
  name := PyVal.vstr "TIPO_ORDEN"
  nameCap := PyVal.vnone
  value := PyVal.vstr ""
  valueCap := PyVal.vnone

/-- A scanned dispatch (no `tipo_orden` field) whose only tag is a
`TIPO_ORDEN` tag with an empty-string value. -/
def w7doc : TipoDoc where
  tipoOrden := none
  tags := TipoTagsField.items [TagItem.dict w7emptyTag]

/-- A `TIPO_ORDEN` tag with a normal value. -/
def w7tag : Tag where
  name := PyVal.vstr "TIPO_ORDEN"
  nameCap := PyVal.vnone
  value := PyVal.vstr "VD"
  valueCap := PyVal.vnone

/-- A route listing item whose `number` field is the empty string while
its `id` field is present. -/
def w8item : RoutePayload where
  number := PyVal.vstr ""
  route_number := PyVal.vnone
  idField := PyVal.vint 7
  dispatch_date := PyVal.vnone
  truck := TruckField.missing
  dispatches := DispListField.missing

/-- A route listing item identified by `route_number` only. -/
def w8item2 : RoutePayload where
  number := PyVal.vnone
  route_number := PyVal.vint 42
  idField := PyVal.vnone
  dispatch_date := PyVal.vnone
  truck := TruckField.missing
  dispatches := DispListField.missing

/-- The single sub-status reference row of the C3 witness: `Código Sub`
stored as the number `1`. -/
def w3row : SubRow where
  codigoSub := PyVal.vint 1
  estadoBeetrack := PyVal.vstr "EB"
  estadoGuia := PyVal.vstr "EG"
  cierre := PyVal.vbool true

/-- The sub-status reference collection of the C3 witness. -/
def w3rows : List SubRow := [w3row]

/-- A dispatch of the C3 witness whose derived fields already hold stale
values. -/
def w3doc : SubDoc where
  substatus_code := PyVal.vstr "001"
  estado_beetrack := PyVal.vstr "stale"
  estado_guia := PyVal.vnone
  cierre := PyVal.vbool false

/-! ## Theorems -/

/-- C5: the code normalizer maps `None` to absent, NaN/infinite floats to
absent, and otherwise stringifies and strips, mapping the empty string
and the literal text "nan" (case-insensitively) to absent and returning
the trimmed string otherwise; the variants function returns the canonical
string plus, when all digits, its integer parse, so `variants("007")`
includes both `"007"` and `7`. -/
theorem c5_code_normalizer :
    (normalizeCode PyVal.vnone = none)
    ∧ (∀ r nan inf zero, nan = true ∨ inf = true →
        normalizeCode (PyVal.vfloat r nan inf zero) = none)
    ∧ (∀ v, v ≠ PyVal.vnone → isBadNumber v = false →
        normalizeCode v =
          (if pyStrip (pyStr v) = "" ∨ pyLower (pyStrip (pyStr v)) = "nan"
           then none else some (pyStrip (pyStr v))))
    ∧ (∀ v s, normalizeCode v = some s →
        ∃ vs, codeVariants v = some vs ∧ PyVal.vstr s ∈ vs ∧
          (pyIsDigits s = true → PyVal.vint (digitsToNat s) ∈ vs))
    ∧ (PyVal.vstr "007" ∈ (codeVariants (PyVal.vstr "007")).getD []
       ∧ PyVal.vint 7 ∈ (codeVariants (PyVal.vstr "007")).getD []) := by
  refine ⟨rfl, ?_, ?_, ?_, by decide⟩
  · intro r nan inf zero h
    rcases h with h | h <;> subst h <;>
      simp [normalizeCode, isBadNumber]
  · intro v hv hbad
    cases v with
    | vnone => exact absurd rfl hv
    | vbool b =>
      simp only [normalizeCode, isBadNumber, Bool.false_eq_true, if_false]
      split <;> rename_i hcond <;> split <;> rename_i hcond2 <;> simp_all
    | vint n =>
      simp only [normalizeCode, isBadNumber, Bool.false_eq_true, if_false]
      split <;> rename_i hcond <;> split <;> rename_i hcond2 <;> simp_all
    | vfloat r nan inf zero =>
      simp only [normalizeCode, hbad, Bool.false_eq_true, if_false]
      split <;> rename_i hcond <;> split <;> rename_i hcond2 <;> simp_all
    | vstr s =>
      simp only [normalizeCode, isBadNumber, Bool.false_eq_true, if_false]
      split <;> rename_i hcond <;> split <;> rename_i hcond2 <;> simp_all
    | vobj r =>
      simp only [normalizeCode, isBadNumber, Bool.false_eq_true, if_false]
      split <;> rename_i hcond <;> split <;> rename_i hcond2 <;> simp_all
  · intro v s h
    unfold codeVariants
    rw [h]
    by_cases hd : pyIsDigits s
    · exact ⟨[PyVal.vstr s, PyVal.vint (digitsToNat s)], by simp [hd], by simp,
        fun _ => by simp⟩
    · refine ⟨[PyVal.vstr s], by simp [hd], by simp, fun hcon => absurd hcon hd⟩

/-- Witness for C5 at concrete inputs. -/
theorem c5_code_normalizer_witness :
    normalizeCode (PyVal.vstr " 007 ") = some "007" := by
  have h := c5_code_normalizer.2.2.1 (PyVal.vstr " 007 ") (by decide) (by decide)
  rw [h]; decide

/-- C9: every job of the static table is registered with
`max_instances=1` and `coalesce=true`; consequently a firing while a
previous firing of the same job is still running is skipped entirely
(nothing queued, state unchanged), and any number of missed firings
executes as a single catch-up run. -/
theorem c9_scheduler_registration (jobs : List JobCfg) (reg : Registration)
    (hreg : reg ∈ scheduleJobs jobs) :
    reg.maxInstances = 1 ∧ reg.coalesce = true
    ∧ (∀ s : JobRunState, 1 ≤ s.active → fireJob reg s = s)
    ∧ (∀ missed s, 1 ≤ missed →
        catchUpMissed reg missed s = fireJob reg s) := by
  obtain ⟨c, _, rfl⟩ := List.mem_map.1 hreg
  refine ⟨rfl, rfl, ?_, ?_⟩
  · intro s hs
    simp [fireJob, hs]
  · intro missed s hm
    have hne : missed ≠ 0 := by omega
    simp [catchUpMissed, hne]

/-- Witness for C9 on a one-job table. -/
theorem c9_scheduler_registration_witness :
    fireJob { jobId := "get_routes", trigger := Trigger.interval 300,
              maxInstances := 1, coalesce := true }
        { active := 1, started := 5 } = { active := 1, started := 5 }
    ∧ catchUpMissed { jobId := "get_routes", trigger := Trigger.interval 300,
                      maxInstances := 1, coalesce := true } 3
        { active := 0, started := 0 } =
      fireJob { jobId := "get_routes", trigger := Trigger.interval 300,
                maxInstances := 1, coalesce := true }
        { active := 0, started := 0 } :=
  ⟨(c9_scheduler_registration
      [{ jobId := "get_routes", jobType := some "interval", seconds := 300,
         cron := "" }] _ (by decide)).2.2.1 _ (by decide),
   (c9_scheduler_registration
      [{ jobId := "get_routes", jobType := some "interval", seconds := 300,
         cron := "" }] _ (by decide)).2.2.2 3 _ (by decide)⟩

/-- Helper: a save never changes a key that is already occupied. -/
theorem saveDispatchToMongo_preserves (st : FetchStore) (p : FetchFields)
    (k : PyVal) (d : FetchFields) (h : st k = some d) :
    saveDispatchToMongo st p k = some d := by
  unfold saveDispatchToMongo
  cases hpi : st p.identifier with
  | some q => exact h
  | none =>
    by_cases hk : k = p.identifier
    · rw [hk] at h; rw [h] at hpi; cases hpi
    · simp [hk, h]

/-- C10: a fetched dispatch whose identifier already matches a stored
document causes no write at all, and a document present in the store
before a `fetch_dispatches_by_dates` run is never modified by it. -/
theorem c10_fetch_never_modifies (st : FetchStore) (k : PyVal)
    (d : FetchFields) (h : st k = some d) :
    (∀ p : FetchFields, p.identifier = k → saveDispatchToMongo st p = st)
    ∧ (∀ l : List FetchFields, fetchDispatchesSave st l k = some d) := by
  constructor
  · intro p hp
    unfold saveDispatchToMongo
    rw [hp, h]
  · intro l
    induction l generalizing st d with
    | nil => exact h
    | cons p rest ih =>
      exact ih _ _ (saveDispatchToMongo_preserves st p k d h)

/-- Witness for C10 on a one-document store. -/
theorem c10_fetch_never_modifies_witness :
    saveDispatchToMongo w10store w10new = w10store
    ∧ fetchDispatchesSave w10store [w10new] (PyVal.vstr "D9")
        = some (buildDispatchDoc w10old) :=
  ⟨(c10_fetch_never_modifies w10store (PyVal.vstr "D9")
      (buildDispatchDoc w10old) (by decide)).1 w10new (by decide),
   (c10_fetch_never_modifies w10store (PyVal.vstr "D9")
      (buildDispatchDoc w10old) (by decide)).2 [w10new]⟩

/-- C3: the sub-status backfill scans every dispatch and re-derives the
three outputs from the current `substatus_code` alone — every scanned
document is rewritten, with three nulls when the code normalizes to
absent or when no reference row's `Código Sub` equals any of the code's
variants, and with the matched row's `Estado Beetrack` / `Estado Guía` /
`Cierre` values otherwise. -/
theorem c3_substatus_backfill (rows : List SubRow) (docs : List SubDoc) :
    (runSubstatus rows docs).length = docs.length
    ∧ (∀ i (h1 : i < docs.length)
          (h2 : i < (runSubstatus rows docs).length),
        (runSubstatus rows docs).get ⟨i, h2⟩ =
          { docs.get ⟨i, h1⟩ with
            estado_beetrack :=
              (substatusFields rows ((docs.get ⟨i, h1⟩).substatus_code)).1,
            estado_guia :=
              (substatusFields rows ((docs.get ⟨i, h1⟩).substatus_code)).2.1,
            cierre :=
              (substatusFields rows ((docs.get ⟨i, h1⟩).substatus_code)).2.2 })
    ∧ (∀ code, normalizeCode code = none →
        substatusFields rows code = (PyVal.vnone, PyVal.vnone, PyVal.vnone))
    ∧ (∀ code s, normalizeCode code = some s →
        (∀ row ∈ rows, row.codigoSub ∉ (codeVariants code).getD []) →
        substatusFields rows code = (PyVal.vnone, PyVal.vnone, PyVal.vnone))
    ∧ (∀ code row, lookupSubstatus rows code = some row →
        substatusFields rows code =
          (row.estadoBeetrack, row.estadoGuia, row.cierre)) := by
  refine ⟨by simp [runSubstatus], ?_, ?_, ?_, ?_⟩
  · intro i h1 h2
    simp [runSubstatus]
  · intro code h
    unfold substatusFields
    rw [h]
  · intro code s h hnone
    have hfind : lookupSubstatus rows code = none := by
      cases hv : codeVariants code with
      | none => simp [lookupSubstatus, hv]
      | some vs =>
        have hstep : lookupSubstatus rows code =
            if vs.isEmpty then none
            else rows.find? (fun row => decide (row.codigoSub ∈ vs)) := by
          simp [lookupSubstatus, hv]
        rw [hstep]
        split
        · rfl
        · rw [List.find?_eq_none]
          intro row hrow
          have hmem := hnone row hrow
          rw [hv] at hmem
          simpa using hmem
    unfold substatusFields
    rw [h, hfind]
  · intro code row h
    unfold substatusFields
    cases hn : normalizeCode code with
    | none =>
      have hl : lookupSubstatus rows code = none := by
        unfold lookupSubstatus codeVariants
        rw [hn]
      rw [hl] at h
      exact Option.noConfusion h
    | some s => rw [h]

/-- Witness for C3: code `"001"` matches the reference row storing the
code as the number `1`, and the literal text `"nan"` is forced to three
nulls. -/
theorem c3_substatus_backfill_witness :
    substatusFields w3rows (PyVal.vstr "001") =
      (PyVal.vstr "EB", PyVal.vstr "EG", PyVal.vbool true)
    ∧ substatusFields w3rows (PyVal.vstr "nan") =
      (PyVal.vnone, PyVal.vnone, PyVal.vnone) :=
  ⟨(c3_substatus_backfill w3rows [w3doc]).2.2.2.2 _ w3row (by decide),
   (c3_substatus_backfill w3rows [w3doc]).2.2.1 _ (by decide)⟩

/-- Helper: the CODCOMU scan returns `none` when no tag matches. -/
theorem extractCodcomuGo_eq_none (l : List Tag)
    (h : ∀ t ∈ l, isCodcomuTag t = false) : extractCodcomuGo l = none := by
  induction l with
  | nil => rfl
  | cons t rest ih =>
    have ht := h t (by simp)
    have hrest : ∀ u ∈ rest, isCodcomuTag u = false :=
      fun u hu => h u (by simp [hu])
    simp [extractCodcomuGo, ht]
    exact ih hrest

/-- Helper: the CODCOMU scan stops at the first matching tag. -/
theorem extractCodcomuGo_first (pre : List Tag) (t : Tag) (post : List Tag)
    (hpre : ∀ u ∈ pre, isCodcomuTag u = false) (ht : isCodcomuTag t = true) :
    extractCodcomuGo (pre ++ t :: post) =
      (match tagValue t with
       | PyVal.vnone => none
       | v => some (pyStrip (pyStr v))) := by
  induction pre with
  | nil =>
    simp only [List.nil_append, extractCodcomuGo, ht, if_true]
  | cons u rest ih =>
    have hu := hpre u (by simp)
    have hrest : ∀ w ∈ rest, isCodcomuTag w = false :=
      fun w hw => hpre w (by simp [hw])
    simp only [List.cons_append, extractCodcomuGo, hu, Bool.false_eq_true,
      if_false]
    exact ih hrest

/-- C6 counterexample: a tag list containing an entry named `CODCOMU`
whose `value` is the empty string yields absent, although the claim
demands the entry's stringified trimmed value `""`. -/
theorem c6_codcomu_counterexample :
    extractCodcomuValue (CodTagsField.items [w6emptyTag]) = none
    ∧ some (pyStrip (pyStr w6emptyTag.value)) ≠ (none : Option String) := by
  exact ⟨by decide, by decide⟩

/-- C6 (amended): carrier extraction returns absent for a non-list
`tags` field and for lists without a matching tag; for the first matching
tag (truthy name whose stripped upper-casing is `CODCOMU`) it returns the
trimmed stringified resolved value, except that a value resolving to
`None` through the `value or Value` fallback yields absent. -/
theorem c6_codcomu_extraction :
    (extractCodcomuValue CodTagsField.notList = none)
    ∧ (∀ tags, (∀ t ∈ tags, isCodcomuTag t = false) →
        extractCodcomuValue (CodTagsField.items tags) = none)
    ∧ (∀ pre t post, (∀ u ∈ pre, isCodcomuTag u = false) →
        isCodcomuTag t = true →
        extractCodcomuValue (CodTagsField.items (pre ++ t :: post)) =
          (match tagValue t with
           | PyVal.vnone => none
           | v => some (pyStrip (pyStr v)))) := by
  refine ⟨rfl, ?_, ?_⟩
  · intro tags h
    exact extractCodcomuGo_eq_none tags h
  · intro pre t post hpre ht
    exact extractCodcomuGo_first pre t post hpre ht

/-- Witness for C6: a lower-case CODCOMU tag with a padded value. -/
theorem c6_codcomu_extraction_witness :
    extractCodcomuValue (CodTagsField.items [w6tag]) = some "55" := by
  have h := c6_codcomu_extraction.2.2 [] w6tag [] (by simp) (by decide)
  rw [List.nil_append] at h
  rw [h]
  decide

/-- Helper: the `TIPO_ORDEN` scan returns `None` when no item matches. -/
theorem extractTipoOrdenGo_eq_none (l : List TagItem)
    (h : ∀ u ∈ l, isTipoOrdenTag u = false) :
    extractTipoOrdenGo l = PyVal.vnone := by
  induction l with
  | nil => rfl
  | cons u rest ih =>
    have hrest : ∀ w ∈ rest, isTipoOrdenTag w = false :=
      fun w hw => h w (by simp [hw])
    cases u with
    | nonDict => simpa [extractTipoOrdenGo] using ih hrest
    | dict t =>
      have ht := h (TagItem.dict t) (by simp)
      have hne : ¬ t.name = PyVal.vstr "TIPO_ORDEN" := by
        simpa [isTipoOrdenTag] using ht
      simp only [extractTipoOrdenGo, hne, if_false]
      exact ih hrest

/-- Helper: the `TIPO_ORDEN` scan returns the first matching dict tag's
`value` entry. -/
theorem extractTipoOrdenGo_first (pre : List TagItem) (t : Tag)
    (post : List TagItem) (hpre : ∀ u ∈ pre, isTipoOrdenTag u = false)
    (ht : t.name = PyVal.vstr "TIPO_ORDEN") :
    extractTipoOrdenGo (pre ++ TagItem.dict t :: post) = t.value := by
  induction pre with
  | nil => simp [extractTipoOrdenGo, ht]
  | cons u rest ih =>
    have hrest : ∀ w ∈ rest, isTipoOrdenTag w = false :=
      fun w hw => hpre w (by simp [hw])
    cases u with
    | nonDict => simpa [extractTipoOrdenGo] using ih hrest
    | dict u' =>
      have hu := hpre (TagItem.dict u') (by simp)
      have hne : ¬ u'.name = PyVal.vstr "TIPO_ORDEN" := by
        simpa [isTipoOrdenTag] using hu
      simp only [List.cons_append, extractTipoOrdenGo, hne, if_false]
      exact ih hrest

/-- C7 counterexample: a scanned dispatch whose `TIPO_ORDEN` tag carries
the empty string is written (with the empty value), although the claim
demands no write for a non-present/empty value. -/
theorem c7_tipo_orden_counterexample :
    runTipoOrden [w7doc] ≠ [w7doc]
    ∧ runTipoOrden [w7doc] = [{ w7doc with tipoOrden := some (PyVal.vstr "") }] := by
  exact ⟨by decide, by decide⟩

/-- C7 (amended): the order-type job scans only documents lacking
`tipo_orden`; it performs no write exactly when the extraction (the
`value` entry of the first dict tag named exactly `TIPO_ORDEN`, `None`
when there is none or `tags` is not a list) yields `None`, and otherwise
writes the extracted value — including a present-but-empty one. -/
theorem c7_tipo_orden_backfill (docs : List TipoDoc) :
    ((runTipoOrden docs).length = docs.length)
    ∧ (∀ i (h1 : i < docs.length) (h2 : i < (runTipoOrden docs).length),
        ((docs.get ⟨i, h1⟩).tipoOrden.isSome →
          (runTipoOrden docs).get ⟨i, h2⟩ = docs.get ⟨i, h1⟩)
        ∧ (extractTipoOrden (docs.get ⟨i, h1⟩).tags = PyVal.vnone →
          (runTipoOrden docs).get ⟨i, h2⟩ = docs.get ⟨i, h1⟩)
        ∧ (∀ v, (docs.get ⟨i, h1⟩).tipoOrden = none →
            extractTipoOrden (docs.get ⟨i, h1⟩).tags = v →
            v ≠ PyVal.vnone →
            (runTipoOrden docs).get ⟨i, h2⟩ =
              { docs.get ⟨i, h1⟩ with tipoOrden := some v }))
    ∧ (∀ pre t post, (∀ u ∈ pre, isTipoOrdenTag u = false) →
        t.name = PyVal.vstr "TIPO_ORDEN" →
        extractTipoOrden (TipoTagsField.items (pre ++ TagItem.dict t :: post)) =
          t.value)
    ∧ (∀ l, (∀ u ∈ l, isTipoOrdenTag u = false) →
        extractTipoOrden (TipoTagsField.items l) = PyVal.vnone)
    ∧ (extractTipoOrden TipoTagsField.notList = PyVal.vnone) := by
  have hget : ∀ i (h1 : i < docs.length) (h2 : i < (runTipoOrden docs).length),
      (runTipoOrden docs).get ⟨i, h2⟩ = tipoOrdenStep (docs.get ⟨i, h1⟩) := by
    intro i h1 h2
    simp [runTipoOrden]
  refine ⟨by simp [runTipoOrden], ?_, ?_, ?_, rfl⟩
  · intro i h1 h2
    refine ⟨?_, ?_, ?_⟩
    · intro hsome
      rw [hget i h1 h2]
      unfold tipoOrdenStep
      rw [if_pos hsome]
    · intro hv
      rw [hget i h1 h2]
      unfold tipoOrdenStep
      rw [hv]
      split <;> rfl
    · intro v hnone hv hne
      rw [hget i h1 h2]
      unfold tipoOrdenStep
      rw [hnone, hv]
      cases v with
      | vnone => exact absurd rfl hne
      | vbool b => rfl
      | vint n => rfl
      | vfloat r nan inf zero => rfl
      | vstr s => rfl
      | vobj r => rfl
  · intro pre t post hpre ht
    exact extractTipoOrdenGo_first pre t post hpre ht
  · intro l h
    exact extractTipoOrdenGo_eq_none l h

/-- Witness for C7: a `TIPO_ORDEN` tag with value `"VD"` is extracted. -/
theorem c7_tipo_orden_backfill_witness :
    extractTipoOrden (TipoTagsField.items [TagItem.dict w7tag]) =
      PyVal.vstr "VD" := by
  have h := (c7_tipo_orden_backfill []).2.2.1 [] w7tag [] (by simp) (by decide)
  rw [List.nil_append] at h
  rw [h]
  decide

/-- C8 counterexample: a listing item whose `number` field holds the
empty string derives key `""` but is skipped by the upsert loop
(`if not key`), although the claim says only items with none of the three
fields are skipped; nothing is stored under `""` nor under the
stringification of the also-present `id` field. -/
theorem c8_route_key_counterexample :
    extractRouteKey w8item = some ""
    ∧ upsertRoutesForPage "2025-11-26" 1 0 [w8item] (fun _ => none) "" = none
    ∧ upsertRoutesForPage "2025-11-26" 1 0 [w8item] (fun _ => none) "7" = none := by
  exact ⟨by decide, rfl, rfl⟩

/-- C8 (amended): the route key is the stringification of the first
non-`None` value among `number`, `route_number`, `id` in that order; an
item with none of these, or whose derived key is the empty (falsy)
string, is skipped by the upsert loop while the rest of the page is still
processed. -/
theorem c8_route_key_derivation :
    (∀ item : RoutePayload, item.number ≠ PyVal.vnone →
        extractRouteKey item = some (pyStr item.number))
    ∧ (∀ item : RoutePayload, item.number = PyVal.vnone →
        item.route_number ≠ PyVal.vnone →
        extractRouteKey item = some (pyStr item.route_number))
    ∧ (∀ item : RoutePayload, item.number = PyVal.vnone →
        item.route_number = PyVal.vnone → item.idField ≠ PyVal.vnone →
        extractRouteKey item = some (pyStr item.idField))
    ∧ (∀ item : RoutePayload, item.number = PyVal.vnone →
        item.route_number = PyVal.vnone → item.idField = PyVal.vnone →
        extractRouteKey item = none)
    ∧ (∀ item dateStr page now pre post st,
        (extractRouteKey item = none ∨ extractRouteKey item = some "") →
        upsertRoutesForPage dateStr page now (pre ++ item :: post) st =
          upsertRoutesForPage dateStr page now (pre ++ post) st) := by
  refine ⟨?_, ?_, ?_, ?_, ?_⟩
  · intro item h
    simp [extractRouteKey, h]
  · intro item h1 h2
    simp [extractRouteKey, h1, h2]
  · intro item h1 h2 h3
    simp [extractRouteKey, h1, h2, h3]
  · intro item h1 h2 h3
    simp [extractRouteKey, h1, h2, h3]
  · intro item dateStr page now pre post st hk
    have hstep : ∀ X : RouteStore,
        routesPageStep dateStr page now X item = X := by
      intro X
      unfold routesPageStep
      rcases hk with hk | hk
      · rw [hk]
      · rw [hk]
        simp
    unfold upsertRoutesForPage
    rw [List.foldl_append, List.foldl_append, List.foldl_cons, hstep]

/-- Witness for C8: a key derived from `route_number`, and the skip of an
empty-key item leaving the page run equal to the run without it. -/
theorem c8_route_key_derivation_witness :
    extractRouteKey w8item2 = some "42"
    ∧ upsertRoutesForPage "2025-11-26" 1 0 [w8item] (fun _ => none) =
      upsertRoutesForPage "2025-11-26" 1 0 [] (fun _ => none) := by
  constructor
  · exact c8_route_key_derivation.2.1 w8item2 rfl (by decide)
  · have h := c8_route_key_derivation.2.2.2.2 w8item "2025-11-26" 1 0 [] []
      (fun _ => none) (Or.inr (by decide))
    simpa using h

/-- Helper: the per-id closure test holds iff the id's dispatch document
is stored with `cierre` exactly `True`. -/
theorem cierreTrue_iff (disps : DispStore) (dk : String) :
    cierreTrue disps dk = true ↔
      ∃ d, disps dk = some d ∧ d.cierre = PyVal.vbool true := by
  unfold cierreTrue
  cases hd : disps dk with
  | none => simp
  | some d => simp

/-- C2: for a stored, not-yet-closed route, the closure evaluator sets
`is_closed = true` and `closed_at = now` iff every dispatch id of the
route's working-payload list has a stored dispatch whose `cierre` is
exactly the boolean `true`; an empty list closes the route immediately,
and otherwise the store is left unchanged. -/
theorem c2_route_closure (st : RouteStore) (disps : DispStore) (rk : String)
    (r : RouteDoc) (now : Nat)
    (h1 : st rk = some r) (h2 : r.isClosed ≠ some true) :
    (runCloseRoute disps rk now st rk =
        some { r with isClosed := some true, closedAt := some now }
      ↔ ∀ dk ∈ extractDispatchIds (getRoutePayload r),
          ∃ d, disps dk = some d ∧ d.cierre = PyVal.vbool true)
    ∧ ((¬ ∀ dk ∈ extractDispatchIds (getRoutePayload r),
          ∃ d, disps dk = some d ∧ d.cierre = PyVal.vbool true) →
        runCloseRoute disps rk now st = st)
    ∧ (extractDispatchIds (getRoutePayload r) = [] →
        runCloseRoute disps rk now st rk =
          some { r with isClosed := some true, closedAt := some now }) := by
  have hall_iff :
      ((extractDispatchIds (getRoutePayload r)).all (cierreTrue disps) = true)
        ↔ ∀ dk ∈ extractDispatchIds (getRoutePayload r),
            ∃ d, disps dk = some d ∧ d.cierre = PyVal.vbool true := by
    rw [List.all_eq_true]
    exact forall_congr' fun dk =>
      forall_congr' fun _ => cierreTrue_iff disps dk
  have hcond_iff :
      ((extractDispatchIds (getRoutePayload r)).isEmpty = true
        ∨ (extractDispatchIds (getRoutePayload r)).all (cierreTrue disps) = true)
        ↔ ∀ dk ∈ extractDispatchIds (getRoutePayload r),
            ∃ d, disps dk = some d ∧ d.cierre = PyVal.vbool true := by
    constructor
    · rintro (hemp | hall)
      · intro dk hdk
        rw [List.isEmpty_iff] at hemp
        rw [hemp] at hdk
        cases hdk
      · exact hall_iff.mp hall
    · intro hall
      exact Or.inr (hall_iff.mpr hall)
  have hrun : runCloseRoute disps rk now st =
      if (extractDispatchIds (getRoutePayload r)).isEmpty = true
        ∨ (extractDispatchIds (getRoutePayload r)).all (cierreTrue disps) = true
      then closeRouteUpdate st rk r now else st := by
    simp only [runCloseRoute, h1]
    rw [if_neg h2]
    by_cases hemp : (extractDispatchIds (getRoutePayload r)).isEmpty = true
    · rw [if_pos hemp, if_pos (Or.inl hemp)]
    · rw [if_neg hemp]
      by_cases hall :
          (extractDispatchIds (getRoutePayload r)).all (cierreTrue disps) = true
      · rw [if_pos hall, if_pos (Or.inr hall)]
      · rw [if_neg hall, if_neg (fun hcon => hcon.elim hemp hall)]
  have hcloseAt : closeRouteUpdate st rk r now rk =
      some { r with isClosed := some true, closedAt := some now } := by
    simp [closeRouteUpdate]
  refine ⟨⟨?_, ?_⟩, ?_, ?_⟩
  · intro hres
    by_contra hnall
    rw [hrun, if_neg (fun hcon => hnall (hcond_iff.mp hcon)), h1] at hres
    injection hres with he
    exact h2 (congrArg RouteDoc.isClosed he)
  · intro hall
    rw [hrun, if_pos (hcond_iff.mpr hall)]
    exact hcloseAt
  · intro hnall
    rw [hrun, if_neg (fun hcon => hnall (hcond_iff.mp hcon))]
  · intro hempty
    rw [hrun, if_pos (Or.inl (by rw [hempty]; rfl))]
    exact hcloseAt

/-- Witness for C2: route `R1` lists only dispatch `D1`, stored with
`cierre = true`, so the evaluator closes it. -/
theorem c2_route_closure_witness :
    runCloseRoute w2disps "R1" 99 wroutes1 "R1" =
      some { wroute1 with isClosed := some true, closedAt := some 99 } := by
  refine (c2_route_closure wroutes1 w2disps "R1" wroute1 99 rfl
    (by decide)).1.mpr ?_
  intro dk hdk
  have hids : extractDispatchIds (getRoutePayload wroute1) = ["D1"] := by decide
  rw [hids, List.mem_singleton] at hdk
  subst hdk
  exact ⟨w2disp, rfl, rfl⟩

/-- Helper: the route-page upsert never touches `is_closed`, `full_raw`,
`created_at`, `has_full_details` or `closed_at` of an existing route
document (only the `$setOnInsert` of a first insert sets them). -/
theorem upsertRoutesForPage_preserves (dateStr : String) (page : Int)
    (now : Nat) :
    ∀ (items : List RoutePayload) (st : RouteStore) (rk : String)
      (r : RouteDoc), st rk = some r →
      ∃ r', upsertRoutesForPage dateStr page now items st rk = some r'
        ∧ r'.isClosed = r.isClosed ∧ r'.fullRaw = r.fullRaw
        ∧ r'.createdAt = r.createdAt ∧ r'.hasFullDetails = r.hasFullDetails
        ∧ r'.closedAt = r.closedAt := by
  intro items
  induction items with
  | nil =>
    intro st rk r h
    exact ⟨r, h, rfl, rfl, rfl, rfl, rfl⟩
  | cons item rest ih =>
    intro st rk r h
    have hstep : ∃ r'', routesPageStep dateStr page now st item rk = some r''
        ∧ r''.isClosed = r.isClosed ∧ r''.fullRaw = r.fullRaw
        ∧ r''.createdAt = r.createdAt ∧ r''.hasFullDetails = r.hasFullDetails
        ∧ r''.closedAt = r.closedAt := by
      cases hk : extractRouteKey item with
      | none =>
        have heq : routesPageStep dateStr page now st item = st := by
          unfold routesPageStep
          rw [hk]
        rw [heq]
        exact ⟨r, h, rfl, rfl, rfl, rfl, rfl⟩
      | some key =>
        by_cases hke : key = ""
        · have heq : routesPageStep dateStr page now st item = st := by
            simp only [routesPageStep, hk]
            rw [if_pos hke]
          rw [heq]
          exact ⟨r, h, rfl, rfl, rfl, rfl, rfl⟩
        · by_cases hrk : rk = key
          · subst hrk
            have heq : routesPageStep dateStr page now st item rk =
                some { r with
                       date := dateStr, page := page,
                       minifiedRaw := some item, lastRefreshedAt := now } := by
              simp only [routesPageStep, hk]
              rw [if_neg hke]
              simp [h]
            rw [heq]
            exact ⟨_, rfl, rfl, rfl, rfl, rfl, rfl⟩
          · have heq : routesPageStep dateStr page now st item rk = st rk := by
              simp only [routesPageStep, hk]
              rw [if_neg hke]
              simp [hrk]
            rw [heq]
            exact ⟨r, h, rfl, rfl, rfl, rfl, rfl⟩
    obtain ⟨r'', hr'', p1, p2, p3, p4, p5⟩ := hstep
    obtain ⟨r', hr', q1, q2, q3, q4, q5⟩ :=
      ih (routesPageStep dateStr page now st item) rk r'' hr''
    exact ⟨r', hr', q1.trans p1, q2.trans p2, q3.trans p3, q4.trans p4,
           q5.trans p5⟩

/-- C1 counterexample: route `R9` is closed, yet re-ingesting a listing
page containing it overwrites its `minified_raw` (the `$set` of
`_upsert_routes_for_page` is applied to closed routes too — only
`is_closed`/`created_at`/`has_full_details` are `$setOnInsert`). -/
theorem c1_counterexample :
    (w1routes "R9").map RouteDoc.isClosed = some (some true)
    ∧ (upsertRoutesForPage "2025-11-27" 2 5 [w1item] w1routes "R9").map
        RouteDoc.minifiedRaw ≠ (w1routes "R9").map RouteDoc.minifiedRaw := by
  exact ⟨rfl, by decide⟩

/-- C1 (amended): every operation preserves `is_closed = true` (no job
resets it), the detail refresh and the closure evaluator leave a closed
route entirely unchanged, and route re-ingestion never overwrites
`full_raw` or `created_at` of a closed route — but it does overwrite
`minified_raw` (with `date`, `page`, `last_refreshed_at`) even when the
route is closed. -/
theorem c1_closed_route_protection (st : RouteStore) (rk : String)
    (r : RouteDoc) (h1 : st rk = some r) (h2 : r.isClosed = some true) :
    (∀ dateStr page now items, ∃ r',
        upsertRoutesForPage dateStr page now items st rk = some r'
        ∧ r'.isClosed = some true ∧ r'.fullRaw = r.fullRaw
        ∧ r'.createdAt = r.createdAt)
    ∧ (∀ dateStr fetched now, runGetDetails dateStr fetched now st rk = some r)
    ∧ (∀ disps rk2 now, runCloseRoute disps rk2 now st rk = some r) := by
  refine ⟨?_, ?_, ?_⟩
  · intro dateStr page now items
    obtain ⟨r', hr', p1, p2, p3, _, _⟩ :=
      upsertRoutesForPage_preserves dateStr page now items st rk r h1
    exact ⟨r', hr', by rw [p1, h2], p2, p3⟩
  · intro dateStr fetched now
    simp only [runGetDetails, h1]
    rw [if_neg (fun hcon => hcon.2.1 h2)]
  · intro disps rk2 now
    cases hc : st rk2 with
    | none =>
      simp only [runCloseRoute, hc]
      exact h1
    | some r0 =>
      by_cases hcl : r0.isClosed = some true
      · simp only [runCloseRoute, hc]
        rw [if_pos hcl]
        exact h1
      · have hne : rk ≠ rk2 := by
          intro he
          subst he
          rw [h1] at hc
          cases hc
          exact hcl h2
        simp only [runCloseRoute, hc]
        rw [if_neg hcl]
        by_cases hemp : (extractDispatchIds (getRoutePayload r0)).isEmpty = true
        · rw [if_pos hemp]
          simp only [closeRouteUpdate]
          rw [if_neg hne]
          exact h1
        · rw [if_neg hemp]
          by_cases hall :
              (extractDispatchIds (getRoutePayload r0)).all (cierreTrue disps)
                = true
          · rw [if_pos hall]
            simp only [closeRouteUpdate]
            rw [if_neg hne]
            exact h1
          · rw [if_neg hall]
            exact h1

/-- Witness for C1 on the closed route `R9`: ingestion preserves closure
state and `full_raw`, and the other two jobs leave the document as is. -/
theorem c1_closed_route_protection_witness :
    (∃ r', upsertRoutesForPage "2025-11-27" 2 5 [w1item] w1routes "R9" = some r'
      ∧ r'.isClosed = some true ∧ r'.fullRaw = w1closed.fullRaw
      ∧ r'.createdAt = w1closed.createdAt)
    ∧ runGetDetails "2025-11-20" (fun _ => none) 6 w1routes "R9" = some w1closed
    ∧ runCloseRoute w2disps "R9" 8 w1routes "R9" = some w1closed := by
  have h := c1_closed_route_protection w1routes "R9" w1closed rfl rfl
  exact ⟨h.1 "2025-11-27" 2 5 [w1item], h.2.1 "2025-11-20" (fun _ => none) 6,
         h.2.2 w2disps "R9" 8⟩

/-- Helper: re-upserting the same `$set` content at a later time only
advances `last_refreshed_at`. -/
theorem applyMeta_twice (m : SetMeta) (k : String) (now1 now2 : Nat)
    (old : Option DispatchDoc) :
    applyMeta m k now2 (some (applyMeta m k now1 old)) =
      { applyMeta m k now1 old with lastRefreshedAt := now2 } := by
  cases old <;> rfl

/-- Helper: within one run (one `now`), a second upsert on the same key
supersedes the first one's `$set` while keeping the insert-only fields. -/
theorem applyMeta_chain (m m2 : SetMeta) (k : String) (now : Nat)
    (old : Option DispatchDoc) :
    applyMeta m k now (some (applyMeta m2 k now old)) =
      applyMeta m k now old := by
  cases old <;> rfl

/-- Helper: the upsert loop's net effect on any key `k` — untouched when
no processed item has that key, otherwise the last such item's `$set`
applied over the pre-run document. -/
theorem processDispatches_char (ctx : DispCtx) (now : Nat) :
    ∀ (l : List PDisp) (st : DispStore) (k : String),
      processDispatches ctx now l st k =
        match lastSetFor ctx k l with
        | none => st k
        | some m => some (applyMeta m k now (st k)) := by
  intro l
  induction l with
  | nil =>
    intro st k
    rfl
  | cons d rest ih =>
    intro st k
    have hhead : processDispatches ctx now (d :: rest) st k =
        processDispatches ctx now rest (dispStep ctx now st d) k := rfl
    cases hk : keyOfDispatch d with
    | none =>
      have hstk : dispStep ctx now st d k = st k := by
        unfold dispStep
        rw [hk]
      have hlast : lastSetFor ctx k (d :: rest) = lastSetFor ctx k rest := by
        simp only [lastSetFor]
        cases hrest : lastSetFor ctx k rest with
        | some m => rfl
        | none => simp [hk]
      rw [hhead, ih, hstk, hlast]
    | some k2 =>
      by_cases hkk : k = k2
      · subst hkk
        have hstk : dispStep ctx now st d k =
            some (applyMeta (buildMeta ctx d) k now (st k)) := by
          simp [dispStep, hk]
        cases hrest : lastSetFor ctx k rest with
        | none =>
          have hlast : lastSetFor ctx k (d :: rest) =
              some (buildMeta ctx d) := by
            simp only [lastSetFor]
            rw [hrest]
            simp [hk]
          rw [hhead, ih, hstk]
          simp [hrest, hlast]
        | some m =>
          have hlast : lastSetFor ctx k (d :: rest) = some m := by
            simp only [lastSetFor]
            rw [hrest]
          rw [hhead, ih, hstk]
          simp only [hrest, hlast]
          rw [applyMeta_chain]
      · have hstk : dispStep ctx now st d k = st k := by
          simp only [dispStep, hk]
          rw [if_neg hkk]
        have hlast : lastSetFor ctx k (d :: rest) = lastSetFor ctx k rest := by
          simp only [lastSetFor]
          cases hrest : lastSetFor ctx k rest with
          | some m => rfl
          | none =>
            rw [hk]
            rw [if_neg (fun hcon => hkk (Option.some.inj hcon).symm)]
        rw [hhead, ih, hstk, hlast]

/-- C4: running the dispatch extractor twice on the same route with an
unchanged payload keeps one document per dispatch key (identifier-less
items are skipped); `created_at` and the initial `ct = null` are written
by the first insert only and survive the second run unchanged, while
`last_refreshed_at` advances to the second run's time and every other
field is reproduced identically. -/
theorem c4_dispatch_upsert_idempotent (routes : RouteStore)
    (st0 : DispStore) (rk : String) (rd : RouteDoc) (t1 t2 : Nat)
    (hroute : routes rk = some rd) (k : String) (m : SetMeta)
    (hkey : lastSetFor (mkDispCtx rd rk) k
        (payloadDispList (getRoutePayload rd)) = some m)
    (hfresh : st0 k = none) :
    (∀ d : PDisp, d.identifier = PyVal.vnone → keyOfDispatch d = none)
    ∧ ∃ d1, runGetDispatches routes rk t1 st0 k = some d1
        ∧ d1.createdAt = t1 ∧ d1.ct = PyVal.vnone
        ∧ d1.lastRefreshedAt = t1
        ∧ runGetDispatches routes rk t2 (runGetDispatches routes rk t1 st0) k
            = some { d1 with lastRefreshedAt := t2 } := by
  constructor
  · intro d hd
    unfold keyOfDispatch
    rw [hd]
  · have h1 : runGetDispatches routes rk t1 st0 k =
        some (applyMeta m k t1 none) := by
      simp only [runGetDispatches, hroute]
      rw [processDispatches_char, hkey, hfresh]
    have h2 : runGetDispatches routes rk t2 (runGetDispatches routes rk t1 st0) k
        = some (applyMeta m k t2 (runGetDispatches routes rk t1 st0 k)) := by
      simp only [runGetDispatches, hroute]
      rw [processDispatches_char, hkey]
    refine ⟨applyMeta m k t1 none, h1, rfl, rfl, rfl, ?_⟩
    rw [h2, h1, applyMeta_twice]

/-- Witness for C4 on route `R1` with the single dispatch `D1`, run at
times 10 and 20 from an empty store. -/
theorem c4_dispatch_upsert_idempotent_witness :
    ∃ d1, runGetDispatches wroutes1 "R1" 10 (fun _ => none) "D1" = some d1
      ∧ d1.createdAt = 10 ∧ d1.ct = PyVal.vnone ∧ d1.lastRefreshedAt = 10
      ∧ runGetDispatches wroutes1 "R1" 20
          (runGetDispatches wroutes1 "R1" 10 (fun _ => none)) "D1"
          = some { d1 with lastRefreshedAt := 20 } :=
  (c4_dispatch_upsert_idempotent wroutes1 (fun _ => none) "R1" wroute1 10 20
    rfl "D1" wmeta1 (by decide) rfl).2
